import Mathlib

/-!
Verification development for the AUDIT financial dashboard.

Each Python function relevant to the checked claims is shallowly embedded
as an executable Lean definition.  Machine floats are modelled by exact
rationals except where IEEE special values matter: pandas column division
is modelled by the inductive type PFloat, which records the nan and
infinity results that numpy produces on division by zero.
-/

namespace AuditApp

/-! ## calculations.py : calculate_budget_variance -/

/-- A pandas numeric cell: a finite rational, one of the two infinities,
or nan.  Division by zero follows numpy: x/0 is +inf for x > 0, -inf for
x < 0, and nan for 0/0. -/
inductive PFloat : Type
  | finite : ℚ → PFloat
  | posInf : PFloat
  | negInf : PFloat
  | nan : PFloat
deriving DecidableEq, Repr

/-- Division with numpy semantics on finite operands; nan and infinities
propagate in the IEEE way. -/
def PFloat.div : PFloat → PFloat → PFloat
  | .finite a, .finite b =>
      if b = 0 then
        (if a = 0 then .nan else if 0 < a then .posInf else .negInf)
      else .finite (a / b)
  | .nan, _ => .nan
  | _, .nan => .nan
  | .posInf, .finite _ => .posInf
  | .negInf, .finite _ => .negInf
  | _, _ => .nan

/-- Multiplication; only needed to scale a division result by 100. -/
def PFloat.mul : PFloat → PFloat → PFloat
  | .finite a, .finite b => .finite (a * b)
  | .nan, _ => .nan
  | _, .nan => .nan
  | .posInf, .finite b =>
      if 0 < b then .posInf else if b < 0 then .negInf else .nan
  | .negInf, .finite b =>
      if 0 < b then .negInf else if b < 0 then .posInf else .nan
  | .finite a, .posInf =>
      if 0 < a then .posInf else if a < 0 then .negInf else .nan
  | .finite a, .negInf =>
      if 0 < a then .negInf else if a < 0 then .posInf else .nan
  | .posInf, .posInf => .posInf
  | .posInf, .negInf => .negInf
  | .negInf, .posInf => .negInf
  | .negInf, .negInf => .posInf

/-- pandas Series.fillna(0) on one cell: nan becomes 0, everything else
(including the infinities) is kept unchanged. -/
def PFloat.fillna0 : PFloat → PFloat
  | .nan => .finite 0
  | x => x

/-- One row of calculate_budget_variance (calculations.py): variance is
actual_spent - monthly_budget, and variance_percentage is
(variance / monthly_budget * 100).fillna(0) with pandas float semantics. -/
def calculate_budget_variance (monthly_budget actual_spent : ℚ) : ℚ × PFloat :=
  let variance := actual_spent - monthly_budget
  (variance,
   (((PFloat.finite variance).div (PFloat.finite monthly_budget)).mul
      (PFloat.finite 100)).fillna0)

/-! ## application/approval_workflow_service.py -/

/-- The approval_thresholds dictionary together with dict.get(role, 0):
none encodes float(inf) for admins, every role outside the table maps
to 0. -/
def approvalThreshold (role : String) : Option ℚ :=
  if role = "admin" then none
  else if role = "finance_manager" then some 100000
  else if role = "accountant" then some 50000
  else if role = "employee" then some 10000
  else some 0

/-- requires_approval: the transaction amount strictly exceeds the role
threshold (a finite amount never exceeds the admin infinity). -/
def requires_approval (amount : ℚ) (role : String) : Bool :=
  match approvalThreshold role with
  | none => false
  | some t => decide (t < amount)

/-! ## application/transaction_service.py -/

/-- The fields of domain.entities.Transaction that validation reads. -/
structure Txn : Type where
  description : String
  category : String
  amount : ℚ
  type : String
deriving DecidableEq, Repr

/-- The allowed transaction type strings. -/
def allowedTypes : List String := ["Income", "Expense", "Salary", "Investment", "Loan"]

/-- _validate_transaction error accumulation: each failed check appends
its message, in source order. -/
def validationErrors (t : Txn) : List String :=
  (if t.description.trim = "" then ["Description is required"] else []) ++
  (if t.category.trim = "" then ["Category is required"] else []) ++
  (if t.amount ≤ 0 then ["Amount must be greater than 0"] else []) ++
  (if t.type ∈ allowedTypes then [] else ["Invalid transaction type"])

/-- create_transaction: raise one aggregated ValidationError when any
check failed, otherwise delegate to the repository (modelled as a
function from the transaction to the created row id). -/
def create_transaction (repoCreate : Txn → ℕ) (t : Txn) : Except String ℕ :=
  let errors := validationErrors t
  if errors.isEmpty then Except.ok (repoCreate t)
  else Except.error ("Transaction validation failed: " ++ String.intercalate ", " errors)

/-! ## database.py : get_financial_summary -/

/-- The tables that get_financial_summary aggregates: transactions as
(type, amount) rows, company_investments as amounts, loans as
(loan_direction, principal_amount) rows. -/
structure DBState : Type where
  transactions : List (String × ℚ)
  company_investments : List ℚ
  loans : List (String × ℚ)
deriving DecidableEq, Repr

/-- SQLite SUM: NULL over an empty row set, otherwise the sum. -/
def sqlSum (l : List ℚ) : Option ℚ :=
  if l.isEmpty then none else some l.sum

/-- NULL-propagating SQL addition. -/
def sqlAdd : Option ℚ → Option ℚ → Option ℚ
  | some a, some b => some (a + b)
  | _, _ => none

/-- NULL-propagating SQL subtraction. -/
def sqlSub : Option ℚ → Option ℚ → Option ℚ
  | some a, some b => some (a - b)
  | _, _ => none

/-- The python pattern x if x else 0 applied to a fetched SQL aggregate:
NULL becomes 0 (and a fetched 0 stays 0). -/
def pyCoalesce : Option ℚ → ℚ
  | none => 0
  | some x => x

/-- SUM(amount) over transactions WHERE type IN (Income). -/
def incomeSum (db : DBState) : Option ℚ :=
  sqlSum ((db.transactions.filter (fun r => r.1 = "Income")).map (fun r => r.2))

/-- SUM(amount) over company_investments. -/
def investmentSum (db : DBState) : Option ℚ :=
  sqlSum db.company_investments

/-- SUM(principal_amount) over loans WHERE loan_direction = Inbound. -/
def inboundLoanSum (db : DBState) : Option ℚ :=
  sqlSum ((db.loans.filter (fun r => r.1 = "Inbound")).map (fun r => r.2))

/-- SUM(amount) over transactions WHERE type IN (Expense, Salary). -/
def expenseSum (db : DBState) : Option ℚ :=
  sqlSum ((db.transactions.filter
    (fun r => r.1 = "Expense" ∨ r.1 = "Salary")).map (fun r => r.2))

/-- The dictionary returned by get_financial_summary. -/
structure FinancialSummary : Type where
  total_revenue : ℚ
  total_expenses : ℚ
  net_profit : ℚ
  cash_balance : ℚ
deriving DecidableEq, Repr

/-- get_financial_summary (database.py): each aggregate is coalesced to 0
on the python side before net_profit is computed, but cash_balance is one
SQL expression whose NULL sums propagate, coalesced only at the end. -/
def get_financial_summary (db : DBState) : FinancialSummary :=
  let total_revenue :=
    pyCoalesce (incomeSum db) + pyCoalesce (investmentSum db) +
      pyCoalesce (inboundLoanSum db)
  let total_expenses := pyCoalesce (expenseSum db)
  { total_revenue := total_revenue
    total_expenses := total_expenses
    net_profit := total_revenue - total_expenses
    cash_balance :=
      pyCoalesce (sqlSub
        (sqlAdd (sqlAdd (incomeSum db) (investmentSum db)) (inboundLoanSum db))
        (expenseSum db)) }

/-! ## advanced_reporting.py : cash_flow_forecasting -/

/-- One forecast row: month period, forecasted_income, forecasted_expense,
forecasted_net. -/
structure ForecastRow : Type where
  month : ℕ
  forecasted_income : ℚ
  forecasted_expense : ℚ
  forecasted_net : ℚ
deriving DecidableEq, Repr

/-- The monthly sums of one transaction type over the distinct months of
the pivot, with pivot fillna(0) for months where the type is absent. -/
def monthlySeries (rows : List (ℕ × String × ℚ)) (months : List ℕ)
    (ty : String) : List ℚ :=
  months.map (fun m =>
    ((rows.filter (fun r => r.1 = m ∧ r.2.1 = ty)).map (fun r => r.2.2)).sum)

/-- cash_flow_forecasting (advanced_reporting.py).  A transaction is a
(month period, type, amount) row; the fitted degree-2 regression is
abstracted as the function fit from the historical series and the future
time index to the predicted value.  The local variable future_X is bound
only inside the Income branch; referring to it in the Expense branch when
it was never bound raises NameError, which the surrounding handler
re-raises. -/
def cash_flow_forecasting (fit : List ℚ → ℕ → ℚ)
    (rows : List (ℕ × String × ℚ)) (months_ahead : ℕ) :
    Except String (List ForecastRow) :=
  if rows.isEmpty then Except.ok []
  else
    let months := (rows.map (fun r => r.1)).dedup
    if months.length < 3 then Except.ok []
    else
      let cols := (rows.map (fun r => r.2.1)).dedup
      let n := months.length
      let future_X : Option (List ℕ) :=
        if cols.contains "Income" then
          some ((List.range months_ahead).map (fun i => n + i))
        else none
      let future_income : List ℚ :=
        match future_X with
        | some fx => fx.map (fit (monthlySeries rows months "Income"))
        | none => List.replicate months_ahead 0
      let last_month := months.foldl max 0
      let mkRows (inc exp : List ℚ) : List ForecastRow :=
        (List.range months_ahead).map (fun i =>
          { month := last_month + i + 1
            forecasted_income := inc.getD i 0
            forecasted_expense := exp.getD i 0
            forecasted_net := inc.getD i 0 - exp.getD i 0 })
      if cols.contains "Expense" then
        match future_X with
        | none => Except.error "NameError: name future_X is not defined"
        | some fx =>
            Except.ok (mkRows future_income
              (fx.map (fit (monthlySeries rows months "Expense"))))
      else
        Except.ok (mkRows future_income (List.replicate months_ahead 0))

/-! ## bank_integration.py : find_matches -/

/-- The columns of a bank_transactions or transactions row that matching
reads. -/
structure TxnRow : Type where
  date : String
  amount : ℚ
  description : String
deriving DecidableEq, Repr

/-- find_matches (bank_integration.py): internal transactions on the same
date whose amount differs by strictly less than 1.0 are scored with the
description-similarity function sim (difflib SequenceMatcher ratio,
abstracted); scores at or above the 0.8 threshold are kept and sorted by
similarity descending. -/
def find_matches (sim : String → String → ℚ) (bankTx : TxnRow)
    (internal : List TxnRow) : List (TxnRow × ℚ) :=
  let potential := internal.filter
    (fun t => t.date = bankTx.date ∧ |t.amount - bankTx.amount| < 1)
  let kept := (potential.map
      (fun t => (t, sim bankTx.description t.description))).filter
    (fun p => (4 : ℚ)/5 ≤ p.2)
  kept.insertionSort (fun p q => q.2 ≤ p.2)

instance : IsTotal (TxnRow × ℚ) (fun p q => q.2 ≤ p.2) :=
  ⟨fun a b => le_total b.2 a.2⟩

instance : IsTrans (TxnRow × ℚ) (fun p q => q.2 ≤ p.2) :=
  ⟨fun _ _ _ h1 h2 => le_trans h2 h1⟩

/-! ## currency_manager.py -/

/-- get_exchange_rate: the external feed is modelled as a function from
the source currency to either a failure (any network or parse error) or
the decoded rates dictionary.  On failure the rate is 1.0; a missing
target currency also yields 1.0 via dict.get. -/
def get_exchange_rate (feed : String → Except Unit (List (String × ℚ)))
    (fromCurrency toCurrency : String) : ℚ :=
  match feed fromCurrency with
  | Except.error _ => 1
  | Except.ok rates => (rates.lookup toCurrency).getD 1

/-- convert_amount: identity when the currencies match (the feed is not
consulted), otherwise amount times the fetched rate. -/
def convert_amount (feed : String → Except Unit (List (String × ℚ)))
    (amount : ℚ) (fromCurrency toCurrency : String) : ℚ :=
  if fromCurrency = toCurrency then amount
  else amount * get_exchange_rate feed fromCurrency toCurrency

/-! ## hashlib.sha256 : a byte-level embedding

Machine words are naturals reduced modulo 2 ^ 32 explicitly. -/

/-- Truncation to a 32-bit word. -/
def w32 (n : ℕ) : ℕ := n % 4294967296

/-- 32-bit right rotation. -/
def rotr (b n : ℕ) : ℕ := w32 ((n >>> b) ||| (n <<< (32 - b)))

/-- UTF-8 encoding of one code point, as str.encode does. -/
def utf8Bytes (c : Char) : List ℕ :=
  let n := c.toNat
  if n < 128 then [n]
  else if n < 2048 then [192 ||| (n >>> 6), 128 ||| (n &&& 63)]
  else if n < 65536 then
    [224 ||| (n >>> 12), 128 ||| ((n >>> 6) &&& 63), 128 ||| (n &&& 63)]
  else
    [240 ||| (n >>> 18), 128 ||| ((n >>> 12) &&& 63),
     128 ||| ((n >>> 6) &&& 63), 128 ||| (n &&& 63)]

/-- The UTF-8 bytes of a string. -/
def strBytes (s : String) : List ℕ := (s.data.map utf8Bytes).flatten

/-- The SHA-256 round constants, written in decimal. -/
def shaK : List ℕ :=
  [1116352408, 1899447441, 3049323471, 3921009573, 961987163,
   1508970993, 2453635748, 2870763221, 3624381080, 310598401,
   607225278, 1426881987, 1925078388, 2162078206, 2614888103,
   3248222580, 3835390401, 4022224774, 264347078, 604807628,
   770255983, 1249150122, 1555081692, 1996064986, 2554220882,
   2821834349, 2952996808, 3210313671, 3336571891, 3584528711,
   113926993, 338241895, 666307205, 773529912, 1294757372,
   1396182291, 1695183700, 1986661051, 2177026350, 2456956037,
   2730485921, 2820302411, 3259730800, 3345764771, 3516065817,
   3600352804, 4094571909, 275423344, 430227734, 506948616,
   659060556, 883997877, 958139571, 1322822218, 1537002063,
   1747873779, 1955562222, 2024104815, 2227730452, 2361852424,
   2428436474, 2756734187, 3204031479, 3329325298]

/-- The SHA-256 initial hash state, written in decimal. -/
def shaH0 : List ℕ :=
  [1779033703, 3144134277, 1013904242, 2773480762,
   1359893119, 2600822924, 528734635, 1541459225]

/-- Message padding: the 0x80 byte, zeros to 56 mod 64, and the bit
length as eight big-endian bytes. -/
def shaPad (msg : List ℕ) : List ℕ :=
  let l := msg.length
  let k := (119 - (l % 64)) % 64
  let bits := 8 * l
  msg ++ [128] ++ List.replicate k 0 ++
    [(bits >>> 56) &&& 255, (bits >>> 48) &&& 255, (bits >>> 40) &&& 255,
     (bits >>> 32) &&& 255, (bits >>> 24) &&& 255, (bits >>> 16) &&& 255,
     (bits >>> 8) &&& 255, bits &&& 255]

/-- Split a padded message into 64-byte blocks (fuel-driven recursion on
the length of the list). -/
def chunk64Go : ℕ → List ℕ → List (List ℕ)
  | 0, _ => []
  | _, [] => []
  | fuel + 1, l => l.take 64 :: chunk64Go fuel (l.drop 64)

/-- The 64-byte blocks of a list. -/
def chunk64 (l : List ℕ) : List (List ℕ) := chunk64Go l.length l

/-- The sixteen big-endian 32-bit words of a 64-byte block. -/
def blockWords (block : List ℕ) : List ℕ :=
  (List.range 16).map (fun i =>
    (block.getD (4 * i) 0 <<< 24) ||| (block.getD (4 * i + 1) 0 <<< 16) |||
    (block.getD (4 * i + 2) 0 <<< 8) ||| block.getD (4 * i + 3) 0)

/-- One message-schedule extension step: append w[i] computed from
w[i-16], w[i-15], w[i-7] and w[i-2]. -/
def scheduleStep (ws : List ℕ) : List ℕ :=
  let n := ws.length
  let x15 := ws.getD (n - 15) 0
  let x2 := ws.getD (n - 2) 0
  let s0 := rotr 7 x15 ^^^ rotr 18 x15 ^^^ (x15 >>> 3)
  let s1 := rotr 17 x2 ^^^ rotr 19 x2 ^^^ (x2 >>> 10)
  ws ++ [w32 (ws.getD (n - 16) 0 + s0 + ws.getD (n - 7) 0 + s1)]

/-- Iterate the schedule extension. -/
def buildSchedule : List ℕ → ℕ → List ℕ
  | ws, 0 => ws
  | ws, k + 1 => buildSchedule (scheduleStep ws) k

/-- One SHA-256 compression round on the eight-word working state. -/
def compressStep (st : List ℕ) (kw : ℕ × ℕ) : List ℕ :=
  match st with
  | [a, b, c, d, e, f, g, h] =>
    let bigS1 := rotr 6 e ^^^ rotr 11 e ^^^ rotr 25 e
    let ch := (e &&& f) ^^^ ((4294967295 ^^^ e) &&& g)
    let temp1 := w32 (h + bigS1 + ch + kw.1 + kw.2)
    let bigS0 := rotr 2 a ^^^ rotr 13 a ^^^ rotr 22 a
    let maj := (a &&& b) ^^^ (a &&& c) ^^^ (b &&& c)
    let temp2 := w32 (bigS0 + maj)
    [w32 (temp1 + temp2), a, b, c, w32 (d + temp1), e, f, g]
  | other => other

/-- Process one 64-byte block into the running hash state. -/
def processBlock (hs : List ℕ) (block : List ℕ) : List ℕ :=
  let ws := buildSchedule (blockWords block) 48
  let st := (shaK.zip ws).foldl compressStep hs
  (hs.zip st).map (fun p => w32 (p.1 + p.2))

/-- The four big-endian bytes of one 32-bit word. -/
def wordBytes (w : ℕ) : List ℕ :=
  [(w >>> 24) &&& 255, (w >>> 16) &&& 255, (w >>> 8) &&& 255, w &&& 255]

/-- The 32 digest bytes of SHA-256 of a byte list. -/
def sha256 (msg : List ℕ) : List ℕ :=
  (((chunk64 (shaPad msg)).foldl processBlock shaH0).map wordBytes).flatten

/-- One lowercase hex digit. -/
def hexDigit (n : ℕ) : Char :=
  if n < 10 then Char.ofNat (48 + n) else Char.ofNat (87 + n)

/-- Lowercase hex rendering of a byte list. -/
def bytesToHex (bs : List ℕ) : String :=
  String.mk ((bs.map (fun b => [hexDigit (b / 16), hexDigit (b % 16)])).flatten)

/-- hashlib.sha256(s.encode()).hexdigest(). -/
def sha256Hex (s : String) : String := bytesToHex (sha256 (strBytes s))

/-! ## audit_trail.py : log_action -/

/-- The data_to_hash f-string: the seven rendered fields concatenated in
order, the fresh timestamp last.  Integer ids and the old/new value
dictionaries enter through their str() renderings. -/
def auditHashInput (entity_type entity_id action old_values new_values
    user_id timestamp : String) : String :=
  entity_type ++ entity_id ++ action ++ old_values ++ new_values ++
    user_id ++ timestamp

/-- The inserted audit row: the logged fields plus the SHA-256 hash of
the concatenation. -/
structure AuditRow : Type where
  entity_type : String
  entity_id : String
  action : String
  hash_value : String
deriving DecidableEq, Repr

/-- log_action (audit_trail.py), with the datetime.now() timestamp passed
explicitly: builds data_to_hash, hashes it, inserts one row. -/
def log_action (entity_type entity_id action old_values new_values
    user_id timestamp : String) : AuditRow :=
  { entity_type := entity_type
    entity_id := entity_id
    action := action
    hash_value := sha256Hex (auditHashInput entity_type entity_id action
      old_values new_values user_id timestamp) }

/-! ## user_management.py : hash_password and verify_password -/

/-- Python string slicing s[:n] over code points. -/
def pyTake (s : String) (n : ℕ) : String := String.mk (s.data.take n)

/-- Python string slicing s[n:] over code points. -/
def pyDrop (s : String) (n : ℕ) : String := String.mk (s.data.drop n)

/-- hash_password (user_management.py), with the secrets.token_hex(16)
salt passed explicitly: the stored credential is the salt followed by
sha256 of password + salt. -/
def hash_password (password salt : String) : String :=
  salt ++ sha256Hex (password ++ salt)

/-- verify_password (user_management.py): split the stored value after 32
characters and compare the recomputed salted digest. -/
def verify_password (password stored_hash : String) : Bool :=
  let salt := pyTake stored_hash 32
  let actual_hash := pyDrop stored_hash 32
  decide (sha256Hex (password ++ salt) = actual_hash)

/-! ## Helper lemmas -/

theorem sqlAdd_none_left (x : Option ℚ) : sqlAdd none x = none := by
  cases x <;> rfl

theorem sqlAdd_none_right (x : Option ℚ) : sqlAdd x none = none := by
  cases x <;> rfl

theorem sqlSub_none_left (x : Option ℚ) : sqlSub none x = none := by
  cases x <;> rfl

theorem sqlSub_none_right (x : Option ℚ) : sqlSub x none = none := by
  cases x <;> rfl

theorem string_append_left_cancel {p s t : String} (h : p ++ s = p ++ t) :
    s = t := by
  have hd : p.data ++ s.data = p.data ++ t.data := by
    have := congrArg String.data h
    simpa [String.data_append] using this
  have h2 : s.data = t.data := List.append_cancel_left hd
  cases s
  cases t
  exact congrArg String.mk h2

/-! ## Claim theorems -/

/-- C1: calculate_budget_variance computes variance = actual_spent -
monthly_budget and variance_percentage = variance / monthly_budget * 100,
but for a zero monthly_budget the fillna(0) only neutralises the nan from
0/0: a nonzero actual_spent yields an infinite variance_percentage, not
the 0 the specification promises.  Evaluations: the documented example,
the positive-spend zero-budget row (+inf), a negative-spend zero-budget
row (-inf), and the all-zero row (nan filled to 0). -/
theorem C1_budget_variance_eval :
    calculate_budget_variance 5000 6000 = (1000, PFloat.finite 20) ∧
    calculate_budget_variance 0 6000 = (6000, PFloat.posInf) ∧
    calculate_budget_variance 0 (-250) = (-250, PFloat.negInf) ∧
    calculate_budget_variance 0 0 = (0, PFloat.finite 0) := by
  refine ⟨?_, ?_, ?_, ?_⟩ <;>
    norm_num [calculate_budget_variance, PFloat.div, PFloat.mul, PFloat.fillna0]

/-- C4: requires_approval is true exactly when the transaction amount
strictly exceeds the requestor role threshold: never for admin, above
100000 for finance_manager, above 50000 for accountant, above 10000 for
employee, and above 0 for any role outside the table; an accountant
amount of exactly 50000 needs no approval while 50000.01 does. -/
theorem C4_requires_approval_thresholds (a : ℚ) :
    requires_approval a "admin" = false ∧
    (requires_approval a "finance_manager" = true ↔ 100000 < a) ∧
    (requires_approval a "accountant" = true ↔ 50000 < a) ∧
    (requires_approval a "employee" = true ↔ 10000 < a) ∧
    (∀ role : String,
      role ∉ ["admin", "finance_manager", "accountant", "employee"] →
      (requires_approval a role = true ↔ 0 < a)) ∧
    requires_approval 50000 "accountant" = false ∧
    requires_approval (5000001 / 100) "accountant" = true := by
  refine ⟨rfl, ?_, ?_, ?_, ?_,
    by simp [requires_approval, approvalThreshold],
    by simp [requires_approval, approvalThreshold]; norm_num⟩
  · simp [requires_approval, approvalThreshold]
  · simp [requires_approval, approvalThreshold]
  · simp [requires_approval, approvalThreshold]
  · intro role h
    simp only [List.mem_cons, List.not_mem_nil, or_false, not_or] at h
    simp [requires_approval, approvalThreshold, h.1, h.2.1, h.2.2.1, h.2.2.2]

/-- C4 witness: a role outside the threshold table requires approval for
an amount of 7. -/
theorem C4_requires_approval_thresholds_witness :
    requires_approval 7 "viewer" = true :=
  ((C4_requires_approval_thresholds 7).2.2.2.2.1 "viewer"
    (by decide)).mpr (by norm_num)

/-- C6: convert_amount returns the amount unchanged whenever source and
target currencies are equal, independently of the rate feed, and converts
an amount of 0 to 0 for every currency pair. -/
theorem C6_convert_amount_identity
    (feed feed2 : String → Except Unit (List (String × ℚ)))
    (amount : ℚ) (c1 c2 : String) :
    (c1 = c2 → convert_amount feed amount c1 c2 = amount) ∧
    convert_amount feed 0 c1 c2 = 0 ∧
    (c1 = c2 →
      convert_amount feed amount c1 c2 = convert_amount feed2 amount c1 c2) := by
  refine ⟨fun h => by simp [convert_amount, h], ?_,
    fun h => by simp [convert_amount, h]⟩
  by_cases h : c1 = c2 <;> simp [convert_amount, h]

/-- C6 witness: converting 42 PKR to PKR over a failing feed returns 42,
and converting 0 USD to PKR returns 0. -/
theorem C6_convert_amount_identity_witness :
    convert_amount (fun _ => Except.error ()) 42 "PKR" "PKR" = 42 ∧
    convert_amount (fun _ => Except.error ()) 0 "USD" "PKR" = 0 :=
  ⟨(C6_convert_amount_identity (fun _ => Except.error ())
      (fun _ => Except.error ()) 42 "PKR" "PKR").1 rfl,
   (C6_convert_amount_identity (fun _ => Except.error ())
      (fun _ => Except.error ()) 0 "USD" "PKR").2.1⟩

/-- C7: get_exchange_rate returns 1.0 whenever the feed request fails,
and 1.0 whenever the decoded rates lack the target currency; it never
propagates the failure. -/
theorem C7_get_exchange_rate_fallback
    (feed : String → Except Unit (List (String × ℚ)))
    (fromCurrency toCurrency : String) :
    (feed fromCurrency = Except.error () →
      get_exchange_rate feed fromCurrency toCurrency = 1) ∧
    (∀ rates, feed fromCurrency = Except.ok rates →
      rates.lookup toCurrency = none →
      get_exchange_rate feed fromCurrency toCurrency = 1) := by
  constructor
  · intro h
    simp [get_exchange_rate, h]
  · intro rates h hl
    simp [get_exchange_rate, h, hl]

/-- C7 witness: a failing feed and a feed lacking the PKR rate both give
the fallback rate 1. -/
theorem C7_get_exchange_rate_fallback_witness :
    get_exchange_rate (fun _ => Except.error ()) "USD" "PKR" = 1 ∧
    get_exchange_rate (fun _ => Except.ok [("EUR", 300)]) "USD" "PKR" = 1 :=
  ⟨(C7_get_exchange_rate_fallback (fun _ => Except.error ()) "USD" "PKR").1 rfl,
   (C7_get_exchange_rate_fallback (fun _ => Except.ok [("EUR", 300)])
      "USD" "PKR").2 [("EUR", 300)] rfl (by decide)⟩

/-- C2 (amended): net_profit is total_revenue - total_expenses, and
cash_balance agrees with net_profit whenever all four SQL aggregates draw
on at least one row; when any aggregate is NULL the single-query
cash_balance propagates the NULL and is reported as 0 instead. -/
theorem C2_summary_cash_balance (db : DBState) :
    (get_financial_summary db).net_profit =
      (get_financial_summary db).total_revenue -
        (get_financial_summary db).total_expenses ∧
    (incomeSum db ≠ none → investmentSum db ≠ none →
      inboundLoanSum db ≠ none → expenseSum db ≠ none →
      (get_financial_summary db).cash_balance =
        (get_financial_summary db).net_profit) ∧
    ((incomeSum db = none ∨ investmentSum db = none ∨
      inboundLoanSum db = none ∨ expenseSum db = none) →
      (get_financial_summary db).cash_balance = 0) := by
  refine ⟨rfl, ?_, ?_⟩
  · intro h1 h2 h3 h4
    obtain ⟨a, ha⟩ := Option.ne_none_iff_exists.mp h1
    obtain ⟨b, hb⟩ := Option.ne_none_iff_exists.mp h2
    obtain ⟨c, hc⟩ := Option.ne_none_iff_exists.mp h3
    obtain ⟨d, hd⟩ := Option.ne_none_iff_exists.mp h4
    simp [get_financial_summary, ← ha, ← hb, ← hc, ← hd, sqlAdd, sqlSub,
      pyCoalesce]
  · intro h
    rcases h with h | h | h | h <;>
      simp [get_financial_summary, h, sqlAdd_none_left, sqlAdd_none_right,
        sqlSub_none_left, sqlSub_none_right, pyCoalesce]

/-- C2 witness: on a database with rows in every aggregated table the two
figures agree. -/
theorem C2_summary_cash_balance_witness :
    (get_financial_summary
      { transactions := [("Income", 5000), ("Expense", 1200), ("Salary", 800)],
        company_investments := [2000],
        loans := [("Inbound", 1000)] }).cash_balance =
    (get_financial_summary
      { transactions := [("Income", 5000), ("Expense", 1200), ("Salary", 800)],
        company_investments := [2000],
        loans := [("Inbound", 1000)] }).net_profit :=
  (C2_summary_cash_balance
    { transactions := [("Income", 5000), ("Expense", 1200), ("Salary", 800)],
      company_investments := [2000],
      loans := [("Inbound", 1000)] }).2.1
    (by simp [incomeSum, sqlSum]) (by simp [investmentSum, sqlSum])
    (by simp [inboundLoanSum, sqlSum]) (by simp [expenseSum, sqlSum])

/-- C2 counterexample: one Income transaction of 1000 and empty
investment and loan tables give net_profit 1000 but cash_balance 0, so
the two figures do not agree when some tables contribute no rows. -/
theorem C2_summary_cash_balance_counterexample :
    (get_financial_summary
      { transactions := [("Income", 1000)], company_investments := [],
        loans := [] }).net_profit = 1000 ∧
    (get_financial_summary
      { transactions := [("Income", 1000)], company_investments := [],
        loans := [] }).cash_balance = 0 ∧
    (get_financial_summary
      { transactions := [("Income", 1000)], company_investments := [],
        loans := [] }).cash_balance ≠
      (get_financial_summary
        { transactions := [("Income", 1000)], company_investments := [],
          loans := [] }).net_profit := by
  refine ⟨?_, ?_, ?_⟩ <;>
    simp [get_financial_summary, incomeSum, investmentSum, inboundLoanSum,
      expenseSum, sqlSum, sqlAdd, sqlSub, pyCoalesce]

/-- C3: cash_flow_forecasting returns an empty result on no data and on
fewer than 3 distinct months; with at least 3 months and no Expense
column the expense series defaults to zeros; but with at least 3 months
of transactions that have an Expense column and no Income column the
Expense branch reads the unbound future_X and the call fails with
NameError instead of defaulting the income series to zeros. -/
theorem C3_cash_flow_forecasting_eval :
    cash_flow_forecasting (fun s i => s.headD 0 + i) [] 6 = Except.ok [] ∧
    cash_flow_forecasting (fun s i => s.headD 0 + i)
      [(0, "Income", 100), (1, "Expense", 50)] 6 = Except.ok [] ∧
    cash_flow_forecasting (fun s i => s.headD 0 + i)
      [(0, "Expense", 100), (1, "Expense", 200), (2, "Expense", 300)] 6 =
      Except.error "NameError: name future_X is not defined" ∧
    cash_flow_forecasting (fun _ _ => (7 : ℚ))
      [(0, "Income", 5), (1, "Income", 6), (2, "Income", 7)] 2 =
      Except.ok [⟨3, 7, 0, 7 - 0⟩, ⟨4, 7, 0, 7 - 0⟩] ∧
    cash_flow_forecasting (fun _ _ => (7 : ℚ))
      [(0, "Salary", 5), (1, "Salary", 6), (2, "Salary", 7)] 2 =
      Except.ok [⟨3, 0, 0, 0 - 0⟩, ⟨4, 0, 0, 0 - 0⟩] :=
  ⟨rfl, rfl, rfl, rfl, rfl⟩

/-- C5: create_transaction forwards to the repository exactly when the
description and category are non-blank, the amount is positive and the
type is allowed; otherwise it raises one aggregated error that lists
every violated rule and leaves every repository untouched. -/
theorem C5_create_transaction_validation (repoCreate : Txn → ℕ) (t : Txn) :
    (create_transaction repoCreate t = Except.ok (repoCreate t) ↔
      (¬ t.description.trim = "" ∧ ¬ t.category.trim = "" ∧
        0 < t.amount ∧ t.type ∈ allowedTypes)) ∧
    ((¬ t.description.trim = "" ∧ ¬ t.category.trim = "" ∧
        0 < t.amount ∧ t.type ∈ allowedTypes) ∨
      create_transaction repoCreate t = Except.error
        ("Transaction validation failed: " ++
          String.intercalate ", " (validationErrors t))) ∧
    (∀ repo2 : Txn → ℕ, validationErrors t ≠ [] →
      create_transaction repoCreate t = create_transaction repo2 t) ∧
    (∀ m : String, m ∈ validationErrors t ↔
      ((m = "Description is required" ∧ t.description.trim = "") ∨
       (m = "Category is required" ∧ t.category.trim = "") ∨
       (m = "Amount must be greater than 0" ∧ t.amount ≤ 0) ∨
       (m = "Invalid transaction type" ∧ t.type ∉ allowedTypes))) := by
  by_cases h1 : t.description.trim = "" <;>
  by_cases h2 : t.category.trim = "" <;>
  by_cases h3 : t.amount ≤ 0 <;>
  by_cases h4 : t.type ∈ allowedTypes <;>
  simp [create_transaction, validationErrors, h1, h2, h3, h4, not_le] <;>
  try exact lt_of_not_le h3

/-- C5 witness: a transaction violating a rule is rejected identically
whatever repository is supplied, so the repository is never consulted. -/
theorem C5_create_transaction_validation_witness :
    create_transaction (fun _ => 0)
      { description := " ", category := "", amount := -5, type := "Foo" } =
    create_transaction (fun _ => 1)
      { description := " ", category := "", amount := -5, type := "Foo" } :=
  (C5_create_transaction_validation (fun _ => 0)
    { description := " ", category := "", amount := -5, type := "Foo" }).2.2.1
    (fun _ => 1)
    (by simp [validationErrors, allowedTypes, List.append_eq_nil])

/-- C8 (amended): find_matches returns a permutation of exactly the
candidates on the same date within strict amount tolerance 1.0 whose
similarity is at or above 0.8, sorted by similarity descending; the
0.95 / 0.82 / 0.6 example returns exactly the first two, in that order. -/
theorem C8_find_matches_amended (sim : String → String → ℚ)
    (bankTx : TxnRow) (internal : List TxnRow) :
    (find_matches sim bankTx internal).Perm
      (((internal.filter
          (fun t => t.date = bankTx.date ∧ |t.amount - bankTx.amount| < 1)).map
        (fun t => (t, sim bankTx.description t.description))).filter
        (fun p => (4 : ℚ)/5 ≤ p.2)) ∧
    (find_matches sim bankTx internal).Sorted (fun p q => q.2 ≤ p.2) ∧
    (∀ t s, (t, s) ∈ find_matches sim bankTx internal ↔
      (t ∈ internal ∧ t.date = bankTx.date ∧ |t.amount - bankTx.amount| < 1 ∧
        s = sim bankTx.description t.description ∧ (4 : ℚ)/5 ≤ s)) ∧
    find_matches
      (fun _ d => if d = "a" then (19 : ℚ)/20
        else if d = "b" then (41 : ℚ)/50 else (3 : ℚ)/5)
      ⟨"2024-01-01", 100, "x"⟩
      [⟨"2024-01-01", 100, "a"⟩, ⟨"2024-01-01", 100, "b"⟩,
       ⟨"2024-01-01", 100, "c"⟩] =
      [(⟨"2024-01-01", 100, "a"⟩, 19/20), (⟨"2024-01-01", 100, "b"⟩, 41/50)] := by
  refine ⟨List.perm_insertionSort _ _, List.sorted_insertionSort _ _, ?_, ?_⟩
  · intro t s
    simp only [find_matches]
    rw [(List.perm_insertionSort
      (fun p q : TxnRow × ℚ => q.2 ≤ p.2) _).mem_iff]
    simp only [List.mem_filter, List.mem_map]
    constructor
    · rintro ⟨⟨t0, ⟨ht0m, ht0c⟩, heq⟩, hth⟩
      obtain ⟨h5, h6⟩ := Prod.mk.inj heq
      subst h5
      subst h6
      have hcond := of_decide_eq_true ht0c
      exact ⟨ht0m, hcond.1, hcond.2, rfl, of_decide_eq_true hth⟩
    · rintro ⟨hmem, hdate, hamt, rfl, hth⟩
      exact ⟨⟨t, ⟨hmem, decide_eq_true ⟨hdate, hamt⟩⟩, rfl⟩, decide_eq_true hth⟩
  · simp [find_matches]
    try norm_num
    try simp [List.insertionSort, List.orderedInsert]

/-- C8 counterexample: an internal transaction on the same date whose
amount differs by exactly 1.0 and whose description similarity is 1 meets
every condition of the claim, yet find_matches returns the empty list,
because the SQL tolerance is strict. -/
theorem C8_find_matches_counterexample :
    find_matches (fun a b => if a = b then (1 : ℚ) else 0)
      ⟨"2024-01-01", 100, "desc"⟩ [⟨"2024-01-01", 101, "desc"⟩] = [] ∧
    (⟨"2024-01-01", 101, "desc"⟩ : TxnRow).date =
      (⟨"2024-01-01", 100, "desc"⟩ : TxnRow).date ∧
    |(⟨"2024-01-01", 101, "desc"⟩ : TxnRow).amount - (100 : ℚ)| ≤ 1 ∧
    (4 : ℚ)/5 ≤ (fun a b : String => if a = b then (1 : ℚ) else 0) "desc" "desc" := by
  refine ⟨?_, rfl, by norm_num, by norm_num⟩
  simp [find_matches]
  norm_num

theorem compressStep_length (st : List ℕ) (kw : ℕ × ℕ) :
    (compressStep st kw).length = st.length := by
  unfold compressStep
  rcases st with _ | ⟨a, _ | ⟨b, _ | ⟨c, _ | ⟨d, _ | ⟨e, _ | ⟨f, _ |
    ⟨g, _ | ⟨h, _ | ⟨i, tl⟩⟩⟩⟩⟩⟩⟩⟩⟩ <;> rfl

theorem foldl_compressStep_length (l : List (ℕ × ℕ)) (st : List ℕ) :
    (l.foldl compressStep st).length = st.length := by
  induction l generalizing st with
  | nil => rfl
  | cons x xs ih => rw [List.foldl_cons, ih, compressStep_length]

theorem processBlock_length (hs block : List ℕ) :
    (processBlock hs block).length = hs.length := by
  simp [processBlock, List.length_zip, foldl_compressStep_length, min_self]

theorem foldl_processBlock_length (blocks : List (List ℕ)) (hs : List ℕ) :
    (blocks.foldl processBlock hs).length = hs.length := by
  induction blocks generalizing hs with
  | nil => rfl
  | cons x xs ih => rw [List.foldl_cons, ih, processBlock_length]

theorem length_flatten_wordBytes (l : List ℕ) :
    ((l.map wordBytes).flatten).length = 4 * l.length := by
  induction l with
  | nil => rfl
  | cons x xs ih =>
      simp only [List.map_cons, List.flatten_cons, List.length_append, ih,
        List.length_cons, wordBytes, List.length_nil]
      omega

theorem sha256_length (msg : List ℕ) : (sha256 msg).length = 32 := by
  have h8 : ((chunk64 (shaPad msg)).foldl processBlock shaH0).length = 8 :=
    foldl_processBlock_length (chunk64 (shaPad msg)) shaH0
  show (((((chunk64 (shaPad msg)).foldl processBlock shaH0)).map
    wordBytes).flatten).length = 32
  rw [length_flatten_wordBytes, h8]

theorem hexPairs_length (bs : List ℕ) :
    ((bs.map (fun b => [hexDigit (b / 16), hexDigit (b % 16)])).flatten).length
      = 2 * bs.length := by
  induction bs with
  | nil => rfl
  | cons b tl ih =>
      simp only [List.map_cons, List.flatten_cons, List.length_append, ih,
        List.length_cons, List.length_nil]
      omega

theorem sha256Hex_length (s : String) : (sha256Hex s).length = 64 := by
  have h := hexPairs_length (sha256 (strBytes s))
  have h32 := sha256_length (strBytes s)
  calc (sha256Hex s).length
      = 2 * (sha256 (strBytes s)).length := h
    _ = 2 * 32 := by rw [h32]
    _ = 64 := rfl

theorem sha256Hex_ne_empty (s : String) : sha256Hex s ≠ "" := by
  intro h
  have hl := sha256Hex_length s
  rw [h] at hl
  exact absurd hl (by decide)

/-- C9: every audit row carries a hash_value equal to the SHA-256 hex
digest of the concatenated fields plus timestamp, that hash is never
empty (64 hex characters), two calls identical except for the timestamp
always hash different inputs, and at concrete distinct timestamps the
digests themselves differ. -/
theorem C9_log_action_hash (et ei ac ov nv ui ts : String) :
    (log_action et ei ac ov nv ui ts).hash_value =
      sha256Hex (auditHashInput et ei ac ov nv ui ts) ∧
    (log_action et ei ac ov nv ui ts).hash_value ≠ "" ∧
    (∀ ts2 : String, ts ≠ ts2 →
      auditHashInput et ei ac ov nv ui ts ≠
        auditHashInput et ei ac ov nv ui ts2) ∧
    (log_action "txn" "5" "create" "None" "None" "3"
        "2024-01-01T00:00:01").hash_value ≠
      (log_action "txn" "5" "create" "None" "None" "3"
        "2024-01-01T00:00:02").hash_value := by
  refine ⟨rfl, sha256Hex_ne_empty _, ?_, ?_⟩
  · intro ts2 hne h
    exact hne (string_append_left_cancel h)
  · decide

/-- C9 witness: a concrete audit row has a non-empty hash and a
timestamp-sensitive hash input. -/
theorem C9_log_action_hash_witness :
    (log_action "txn" "5" "create" "None" "None" "3"
      "2024-01-01T00:00:01").hash_value ≠ "" ∧
    auditHashInput "txn" "5" "create" "None" "None" "3"
        "2024-01-01T00:00:01" ≠
      auditHashInput "txn" "5" "create" "None" "None" "3"
        "2024-01-01T00:00:02" :=
  ⟨(C9_log_action_hash "txn" "5" "create" "None" "None" "3"
      "2024-01-01T00:00:01").2.1,
   (C9_log_action_hash "txn" "5" "create" "None" "None" "3"
      "2024-01-01T00:00:01").2.2.1 "2024-01-01T00:00:02" (by decide)⟩

theorem pyTake_append (a b : String) : pyTake (a ++ b) a.length = a := by
  obtain ⟨d⟩ := a
  obtain ⟨e⟩ := b
  show String.mk (List.take d.length (d ++ e)) = String.mk d
  rw [List.take_left]

theorem pyDrop_append (a b : String) : pyDrop (a ++ b) a.length = b := by
  obtain ⟨d⟩ := a
  obtain ⟨e⟩ := b
  show String.mk (List.drop d.length (d ++ e)) = String.mk e
  rw [List.drop_left]

/-- C10: with a 32-character salt, verify_password accepts the stored
credential produced by hash_password for the same password; the stored
credential is exactly the salt followed by the SHA-256 hex digest of
password + salt; and any password whose salted digest differs from the
stored one is rejected. -/
theorem C10_password_storage (password salt : String)
    (hsalt : salt.length = 32) :
    verify_password password (hash_password password salt) = true ∧
    hash_password password salt = salt ++ sha256Hex (password ++ salt) ∧
    (∀ p2 : String, sha256Hex (p2 ++ salt) ≠ sha256Hex (password ++ salt) →
      verify_password p2 (hash_password password salt) = false) := by
  have htake : pyTake (hash_password password salt) 32 = salt := by
    rw [← hsalt]
    exact pyTake_append salt (sha256Hex (password ++ salt))
  have hdrop : pyDrop (hash_password password salt) 32 =
      sha256Hex (password ++ salt) := by
    rw [← hsalt]
    exact pyDrop_append salt (sha256Hex (password ++ salt))
  refine ⟨?_, rfl, ?_⟩
  · simp [verify_password, htake, hdrop]
  · intro p2 hne
    simp [verify_password, htake, hdrop, hne]

/-- C10 witness: a concrete credential round-trips and rejects a wrong
password. -/
theorem C10_password_storage_witness :
    verify_password "Admin123"
      (hash_password "Admin123" "0123456789abcdef0123456789abcdef") = true ∧
    verify_password "Admin124"
      (hash_password "Admin123" "0123456789abcdef0123456789abcdef") = false :=
  ⟨(C10_password_storage "Admin123" "0123456789abcdef0123456789abcdef"
      (by decide)).1,
   (C10_password_storage "Admin123" "0123456789abcdef0123456789abcdef"
      (by decide)).2.2 "Admin124" (by decide)⟩

end AuditApp
